import Mathlib

/-!
Shallow embedding of `src/main.py` (slack-summary-bot): a daily pipeline that
reads active project rows from a sheet, fetches yesterday's Slack messages per
channel, summarizes them with a generative model, and publishes a Google Doc.
External services (Slack, Sheets, Gemini, Docs/Drive) are modelled as function
parameters returning `Except`; side effects are recorded as an `Op` trace.
-/

namespace SlackSummaryBot

/-- A Slack message record as consumed by `get_yesterday_messages`:
the code reads `m.get('user', 'Unknown')` and `m.get('text', '')`, so both
fields are optional; `ts` is the service-side timestamp (epoch order), present
on every Slack message but never read by the code. -/
structure Message where
  ts : Nat
  user : Option String
  text : Option String
deriving Repr, DecidableEq

/-- `f"User({user}): {text}"` with the Python `.get` defaults applied. -/
def format_message (m : Message) : String :=
  "User(" ++ m.user.getD "Unknown" ++ "): " ++ m.text.getD ""

/-- Python truthiness test `if text:` on the extracted text field. -/
def has_text (m : Message) : Bool :=
  !(m.text.getD "").isEmpty

/-- The accumulation loop
`for m in messages[::-1]: ... if text: text_data.append(f"User({user}): {text}")`,
applied to an already-reversed list. -/
def collect_text : List Message → List String
  | [] => []
  | m :: ms =>
    if has_text m then format_message m :: collect_text ms else collect_text ms

/-- Python truthiness of an optional string (`None` and `""` are falsy). -/
def truthy : Option String → Bool
  | none => false
  | some s => !s.isEmpty

/-- `get_yesterday_messages`, with the Slack call's outcome passed in:
on error return `None`; on an empty message list return `None`; otherwise
reverse, keep entries with non-empty text, format, and join with newlines. -/
def get_yesterday_messages : Except String (List Message) → Option String
  | .error _ => none
  | .ok messages =>
    if messages.isEmpty then none
    else some (String.intercalate "\n" (collect_text messages.reverse))

/-- Side-effecting operations issued against external services during a run. -/
inductive Op where
  | inferCall (prompt : String)
  | docCreate (title : String)
  | docInsert (text : String)
  | driveGet
  | driveUpdate
deriving Repr, DecidableEq

/-- The fixed prompt text before the interpolated project name. -/
def prompt_head : String :=
  "\n    あなたは優秀なプロジェクトマネージャーです。\n    以下のSlackログ（プロジェクト: "

/-- The fixed prompt text between the project name and the transcript. -/
def prompt_mid : String :=
  "）から、昨日の動きを把握できる議事録サマリを作成してください。\n    \n    【要件】\n    1. 「決定事項」と「その経緯（誰がなぜそうしたか）」を明確に。\n    2. ネクストアクションや課題があれば記載。\n    3. 雑談は除外。\n    4. Googleドキュメント用のため、Markdownは使わず、見出しは【見出し】のように隅付き括弧で表現。\n    \n    【ログ】\n    "

/-- The fixed prompt text after the transcript. -/
def prompt_tail : String :=
  "\n    "

/-- Python slicing `s[:n]` on a string: the first `n` code points. -/
def str_slice_to (n : Nat) (s : String) : String :=
  String.mk (s.data.take n)

/-- The f-string prompt of `summarize_text`, embedding `text[:20000]`. -/
def build_prompt (project_name text_field : String) : String :=
  prompt_head ++ project_name ++ prompt_mid ++ str_slice_to 20000 text_field
    ++ prompt_tail

/-- `summarize_text`, with the Gemini call passed in as `gen`; returns the
trace of inference calls issued together with the result (`Except` models an
uncaught inference-service exception). -/
def summarize_text (gen : String → Except String String) (text : Option String)
    (project_name : String) : List Op × Except String String :=
  if !truthy text then
    ([], .ok "昨日のメッセージはありませんでした。")
  else
    let prompt := build_prompt project_name (text.getD "")
    ([.inferCall prompt], gen prompt)

/-- A calendar date, for the `strftime('%Y-%m-%d')` title stamp. -/
structure Date where
  year : Nat
  month : Nat
  day : Nat
deriving Repr, DecidableEq

/-- Zero-pad a natural number to width `w`, as `strftime` field formatting. -/
def padNat (w n : Nat) : String :=
  let s := toString n
  String.mk (List.replicate (w - s.length) '0') ++ s

/-- `strftime('%Y-%m-%d')`. -/
def strftime_Ymd (d : Date) : String :=
  padNat 4 d.year ++ "-" ++ padNat 2 d.month ++ "-" ++ padNat 2 d.day

/-- `doc_title = f"{yesterday_str}_{project_name}_日報"`. -/
def doc_title (yesterday : Date) (project_name : String) : String :=
  strftime_Ymd yesterday ++ "_" ++ project_name ++ "_日報"

/-- `create_google_doc` as its trace of Docs/Drive operations: create the
titled document, insert the summary at index 1, read the parents, move. -/
def create_google_doc (yesterday : Date) (project_name summary : String) :
    List Op :=
  [.docCreate (doc_title yesterday project_name), .docInsert summary,
   .driveGet, .driveUpdate]

/-- A sheet row as consumed by the code: `row.get('Status')` (optional) plus
the project-name and channel-id columns read in `main`. -/
structure Row where
  Status : Option String
  projectName : String
  channelId : String
deriving Repr, DecidableEq

/-- `get_configs`: keep the rows whose `Status` equals `'Active'`. -/
def get_configs (rows : List Row) : List Row :=
  rows.filter (fun row => row.Status == some "Active")

/-- One iteration of `main`'s loop for one config row: fetch, then (only when
the fetched text is truthy) summarize and publish.  Returns the trace of
operations together with the uncaught error, if any. -/
def process_config (fetch : String → Except String (List Message))
    (gen : String → Except String String) (yesterday : Date) (config : Row) :
    List Op × Option String :=
  let text := get_yesterday_messages (fetch config.channelId)
  if truthy text then
    match summarize_text gen text config.projectName with
    | (ops, .ok summary) =>
      (ops ++ create_google_doc yesterday config.projectName summary, none)
    | (ops, .error e) => (ops, some e)
  else
    ([], none)

/-- `main`'s loop over the config rows, stopping at the first uncaught error. -/
def run_loop (fetch : String → Except String (List Message))
    (gen : String → Except String String) (yesterday : Date) :
    List Row → List Op × Option String
  | [] => ([], none)
  | config :: rest =>
    match process_config fetch gen yesterday config with
    | (ops, some e) => (ops, some e)
    | (ops, none) =>
      let r := run_loop fetch gen yesterday rest
      (ops ++ r.1, r.2)

/-- `main`: load the active configs and process each in sheet order. -/
def main (fetch : String → Except String (List Message))
    (gen : String → Except String String) (yesterday : Date)
    (rows : List Row) : List Op × Option String :=
  run_loop fetch gen yesterday (get_configs rows)

/-- A naive local `datetime` value as used by `get_yesterday_messages`'s
window computation: a local calendar-day index plus time-of-day fields.
`datetime.replace(hour=..., minute=..., second=...)` keeps `microsecond`. -/
structure PyDatetime where
  days : Int
  hour : Nat
  minute : Nat
  second : Nat
  microsecond : Nat
deriving Repr, DecidableEq

/-- `datetime.timestamp()` in microseconds, for a fixed local-UTC offset
`tz_us` (also in microseconds): local wall-clock time minus the offset. -/
def timestamp_us (tz_us : Int) (d : PyDatetime) : Int :=
  (d.days * 86400 + d.hour * 3600 + d.minute * 60 + d.second) * 1000000
    + d.microsecond - tz_us

/-- `today - datetime.timedelta(days=1)` on a naive datetime: the calendar
day moves back one, the time-of-day fields are unchanged. -/
def sub_one_day (d : PyDatetime) : PyDatetime :=
  { d with days := d.days - 1 }

/-- `datetime.replace(hour=h, minute=m, second=s)`: every other field,
`microsecond` included, is kept. -/
def replace_hms (d : PyDatetime) (h m s : Nat) : PyDatetime :=
  { d with hour := h, minute := m, second := s }

/-- The `(oldest, latest)` window of `get_yesterday_messages` in epoch
microseconds: `yesterday.replace(hour=0, minute=0, second=0).timestamp()`
and `yesterday.replace(hour=23, minute=59, second=59).timestamp()`. -/
def fetch_window (tz_us : Int) (now : PyDatetime) : Int × Int :=
  let yesterday := sub_one_day now
  (timestamp_us tz_us (replace_hms yesterday 0 0 0),
   timestamp_us tz_us (replace_hms yesterday 23 59 59))

/-- Sample message used by concrete witnesses. -/
def sampleMsg : Message := ⟨1, some "u1", some "hello"⟩

/-- A fetch stub returning one message for every channel. -/
def fetchOk : String → Except String (List Message) := fun _ => .ok [sampleMsg]

/-- An inference stub that always succeeds. -/
def genOk : String → Except String String := fun _ => .ok "SUMMARY"

/-- An inference stub that always raises. -/
def genBad : String → Except String String := fun _ => .error "boom"

/-- An active config row. -/
def activeRow : Row := ⟨some "Active", "Alpha", "C01"⟩

/-- An inactive config row. -/
def inactiveRow : Row := ⟨some "Done", "Beta", "C02"⟩

/-- A sample date for witnesses. -/
def date0 : Date := ⟨2024, 5, 1⟩

/-- A fetch stub whose transport always fails. -/
def fetchErr : String → Except String (List Message) := fun _ => .error "down"

/-- A two-message history in the service's newest-first order. -/
def msgsW : List Message :=
  [⟨2, some "u2", some "b"⟩, ⟨1, some "u1", some "a"⟩]

/-- A one-message history whose single record has no text. -/
def msgsNoText : List Message := [⟨1, some "u", none⟩]

/-- A fetch stub returning only text-less messages. -/
def fetchNoText : String → Except String (List Message) := fun _ => .ok msgsNoText

/-- The accumulation loop of `get_yesterday_messages` is the filter of the
entries with non-empty text, each formatted. -/
theorem collect_text_eq (l : List Message) :
    collect_text l = (l.filter has_text).map format_message := by
  induction l with
  | nil => rfl
  | cons m ms ih =>
    by_cases h : has_text m <;> simp [collect_text, List.filter_cons, h, ih]

/-- C4: the transcript text embedded in the inference prompt is exactly the
first 20,000 characters of the transcript: a transcript of length at most
20,000 is embedded in full, and a longer one is silently truncated to its
first 20,000 characters, so the model is never given more. -/
theorem C4_prompt_embeds_first_20000 (gen : String → Except String String)
    (project_name s : String) (h : s.isEmpty = false) :
    (summarize_text gen (some s) project_name).1 =
      [Op.inferCall (build_prompt project_name s)] ∧
    build_prompt project_name s =
      prompt_head ++ project_name ++ prompt_mid ++ str_slice_to 20000 s
        ++ prompt_tail ∧
    (str_slice_to 20000 s).length = min 20000 s.length ∧
    str_slice_to 20000 s ++ String.mk (s.data.drop 20000) = s ∧
    (s.length ≤ 20000 →
      build_prompt project_name s =
        prompt_head ++ project_name ++ prompt_mid ++ s ++ prompt_tail) := by
  refine ⟨?_, rfl, List.length_take 20000 s.data, ?_, ?_⟩
  · simp [summarize_text, truthy, h]
  · cases s with
    | mk data =>
      show String.mk _ = String.mk _
      rw [List.take_append_drop]
  · intro hlen
    have hs : str_slice_to 20000 s = s := by
      cases s with
      | mk data => exact congrArg String.mk (List.take_of_length_le hlen)
    rw [build_prompt, hs]

/-- C4 witness: a five-character transcript is embedded in full. -/
theorem C4_prompt_embeds_first_20000_witness :
    (summarize_text genOk (some "hello") "Alpha").1 =
      [Op.inferCall (build_prompt "Alpha" "hello")] ∧
    (str_slice_to 20000 "hello").length = min 20000 ("hello" : String).length :=
  ⟨(C4_prompt_embeds_first_20000 genOk "Alpha" "hello" rfl).1,
   (C4_prompt_embeds_first_20000 genOk "Alpha" "hello" rfl).2.2.1⟩

/-- C8: on a falsy transcript (`None` or `""`), `summarize_text` returns the
fixed no-messages placeholder and issues zero inference calls. -/
theorem C8_absent_transcript_placeholder (gen : String → Except String String)
    (project_name : String) (text : Option String) (h : truthy text = false) :
    summarize_text gen text project_name =
      ([], .ok "昨日のメッセージはありませんでした。") ∧
    ∀ p, Op.inferCall p ∉ (summarize_text gen text project_name).1 := by
  constructor
  · simp [summarize_text, h]
  · intro p
    simp [summarize_text, h]

/-- C8 witness: an absent transcript yields the placeholder without any call. -/
theorem C8_absent_transcript_placeholder_witness :
    summarize_text genOk none "Alpha" =
      ([], .ok "昨日のメッセージはありませんでした。") :=
  (C8_absent_transcript_placeholder genOk "Alpha" none rfl).1

/-- C9: the created document's title is yesterday's date formatted
`YYYY-MM-DD`, the project name and the fixed suffix 日報, joined by
underscores; concretely `2024-05-01_Alpha_日報` for 2024-05-01 and Alpha. -/
theorem C9_doc_title_format :
    (∀ (yd : Date) (project_name summary : String),
      (create_google_doc yd project_name summary).head? =
        some (Op.docCreate (doc_title yd project_name)) ∧
      doc_title yd project_name =
        String.intercalate "_" [strftime_Ymd yd, project_name, "日報"]) ∧
    doc_title ⟨2024, 5, 1⟩ "Alpha" = "2024-05-01_Alpha_日報" := by
  refine ⟨fun yd project_name summary => ⟨rfl, ?_⟩, by decide⟩
  show strftime_Ymd yd ++ "_" ++ project_name ++ "_日報" =
    strftime_Ymd yd ++ "_" ++ project_name ++ "_" ++ "日報"
  have h1 : ("_日報" : String) = "_" ++ "日報" := rfl
  rw [h1, ← String.append_assoc]

/-- C5: `get_configs` returns exactly the subsequence of rows whose status is
`'Active'`, in the original order: it is a sublist of the input, all its
members are active, and it contains every all-active sublist of the input. -/
theorem C5_active_rows_subsequence (rows : List Row) :
    (get_configs rows).Sublist rows ∧
    (∀ r ∈ get_configs rows, r.Status = some "Active") ∧
    ∀ l : List Row, l.Sublist rows → (∀ r ∈ l, r.Status = some "Active") →
      l.Sublist (get_configs rows) := by
  refine ⟨List.filter_sublist rows, ?_, ?_⟩
  · intro r hr
    rw [get_configs, List.mem_filter] at hr
    simpa using hr.2
  · intro l hsub hall
    have hl : l.filter (fun row => row.Status == some "Active") = l :=
      List.filter_eq_self.mpr (fun a ha => by simp [hall a ha])
    exact hl ▸ hsub.filter (fun row => row.Status == some "Active")

/-- C5 witness: on one active and one inactive row, the active-only sublist
is contained in the returned configs. -/
theorem C5_active_rows_subsequence_witness :
    (get_configs [activeRow, inactiveRow]).Sublist [activeRow, inactiveRow] ∧
    List.Sublist [activeRow] (get_configs [activeRow, inactiveRow]) :=
  ⟨(C5_active_rows_subsequence [activeRow, inactiveRow]).1,
   (C5_active_rows_subsequence [activeRow, inactiveRow]).2.2 [activeRow]
     (by decide) (by decide)⟩

/-- C2 counterexample: when `datetime.now()` carries 500000 microseconds, the
window start is not yesterday at exactly 00:00:00 (nor the end 23:59:59),
because `datetime.replace(hour, minute, second)` keeps the microseconds. -/
theorem C2_cex_microsecond_not_cleared :
    ¬((fetch_window 0 ⟨0, 12, 0, 0, 500000⟩).1 =
        timestamp_us 0 ⟨-1, 0, 0, 0, 0⟩ ∧
      (fetch_window 0 ⟨0, 12, 0, 0, 500000⟩).2 =
        timestamp_us 0 ⟨-1, 23, 59, 59, 0⟩) := by
  decide

/-- C2 amended: the queried window is yesterday 00:00:00 through yesterday
23:59:59 shifted by the sub-second (microsecond) component of the current
time, which `replace` leaves in place; when that component is zero the bounds
are exactly yesterday 00:00:00 and 23:59:59 in epoch representation. -/
theorem C2_window_previous_day_with_microsecond_carry (tz_us : Int)
    (now : PyDatetime) :
    fetch_window tz_us now =
      (timestamp_us tz_us ⟨now.days - 1, 0, 0, 0, 0⟩ + now.microsecond,
       timestamp_us tz_us ⟨now.days - 1, 23, 59, 59, 0⟩ + now.microsecond) ∧
    (now.microsecond = 0 →
      fetch_window tz_us now =
        (timestamp_us tz_us ⟨now.days - 1, 0, 0, 0, 0⟩,
         timestamp_us tz_us ⟨now.days - 1, 23, 59, 59, 0⟩)) := by
  have h1 : fetch_window tz_us now =
      (timestamp_us tz_us ⟨now.days - 1, 0, 0, 0, 0⟩ + now.microsecond,
       timestamp_us tz_us ⟨now.days - 1, 23, 59, 59, 0⟩ + now.microsecond) := by
    simp only [fetch_window, timestamp_us, sub_one_day, replace_hms,
      Prod.mk.injEq]
    constructor <;> push_cast <;> ring
  refine ⟨h1, fun h0 => ?_⟩
  rw [h1, h0]
  simp

/-- C2 witness: a current time on the exact second gives the exact bounds. -/
theorem C2_window_previous_day_witness :
    fetch_window 0 ⟨0, 12, 0, 0, 0⟩ =
      (timestamp_us 0 ⟨-1, 0, 0, 0, 0⟩, timestamp_us 0 ⟨-1, 23, 59, 59, 0⟩) :=
  (C2_window_previous_day_with_microsecond_carry 0 ⟨0, 12, 0, 0, 0⟩).2 rfl

/-- C3: on a non-empty history in the service's newest-first order, the
transcript is the chronologically (oldest-first) ordered records with
non-empty text, formatted and newline-joined; an empty history gives none. -/
theorem C3_transcript_chronological (msgs : List Message)
    (hsorted : msgs.Sorted (fun a b => b.ts ≤ a.ts)) :
    get_yesterday_messages (Except.ok ([] : List Message)) = none ∧
    (msgs ≠ [] →
      get_yesterday_messages (Except.ok msgs) =
        some (String.intercalate "\n"
          ((msgs.reverse.filter has_text).map format_message)) ∧
      (msgs.reverse.filter has_text).Sorted (fun a b => a.ts ≤ b.ts)) := by
  refine ⟨rfl, fun hne => ⟨?_, ?_⟩⟩
  · simp [get_yesterday_messages, hne, collect_text_eq]
  · exact (List.pairwise_reverse.mpr hsorted).filter has_text

/-- C3 witness: a concrete newest-first two-message history. -/
theorem C3_transcript_chronological_witness :
    get_yesterday_messages (Except.ok msgsW) =
      some (String.intercalate "\n"
        ((msgsW.reverse.filter has_text).map format_message)) ∧
    (msgsW.reverse.filter has_text).Sorted (fun a b => a.ts ≤ b.ts) :=
  (C3_transcript_chronological msgsW (by decide)).2 (by decide)

/-- A non-truthy fetched text short-circuits the loop body: no operations. -/
theorem process_config_of_not_truthy
    {fetch : String → Except String (List Message)}
    {gen : String → Except String String} {yd : Date} {config : Row}
    (h : truthy (get_yesterday_messages (fetch config.channelId)) = false) :
    process_config fetch gen yd config = ([], none) := by
  simp [process_config, h]

/-- With truthy text and a successful inference call, the loop body issues
the inference call followed by the four publisher operations. -/
theorem process_config_of_gen_ok
    {fetch : String → Except String (List Message)}
    {gen : String → Except String String} {yd : Date} {config : Row}
    {summary : String}
    (ht : truthy (get_yesterday_messages (fetch config.channelId)) = true)
    (hg : gen (build_prompt config.projectName
        ((get_yesterday_messages (fetch config.channelId)).getD "")) =
      .ok summary) :
    process_config fetch gen yd config =
      (Op.inferCall (build_prompt config.projectName
          ((get_yesterday_messages (fetch config.channelId)).getD ""))
        :: create_google_doc yd config.projectName summary, none) := by
  simp [process_config, summarize_text, ht, hg]

/-- With truthy text and a failing inference call, the loop body issues only
the inference call and surfaces the error. -/
theorem process_config_of_gen_error
    {fetch : String → Except String (List Message)}
    {gen : String → Except String String} {yd : Date} {config : Row}
    {e : String}
    (ht : truthy (get_yesterday_messages (fetch config.channelId)) = true)
    (hg : gen (build_prompt config.projectName
        ((get_yesterday_messages (fetch config.channelId)).getD "")) =
      .error e) :
    process_config fetch gen yd config =
      ([Op.inferCall (build_prompt config.projectName
          ((get_yesterday_messages (fetch config.channelId)).getD ""))],
        some e) := by
  simp [process_config, summarize_text, ht, hg]

/-- When the generator always succeeds, a loop body never raises. -/
theorem process_config_snd_none
    {fetch : String → Except String (List Message)}
    {gen : String → Except String String} {yd : Date} {config : Row}
    (hgen : ∀ p, ∃ s, gen p = .ok s) :
    (process_config fetch gen yd config).2 = none := by
  by_cases ht : truthy (get_yesterday_messages (fetch config.channelId)) = true
  · obtain ⟨s, hs⟩ := hgen (build_prompt config.projectName
      ((get_yesterday_messages (fetch config.channelId)).getD ""))
    rw [process_config_of_gen_ok ht hs]
  · have ht' : truthy (get_yesterday_messages (fetch config.channelId)) =
        false := by simpa using ht
    rw [process_config_of_not_truthy ht']

/-- Unfolding of the loop at a config that completes without error. -/
theorem run_loop_cons_ok {fetch : String → Except String (List Message)}
    {gen : String → Except String String} {yd : Date} {config : Row}
    {rest : List Row} {ops : List Op}
    (h : process_config fetch gen yd config = (ops, none)) :
    run_loop fetch gen yd (config :: rest) =
      (ops ++ (run_loop fetch gen yd rest).1,
       (run_loop fetch gen yd rest).2) := by
  simp [run_loop, h]

/-- Unfolding of the loop at a config whose body raises: the run stops. -/
theorem run_loop_cons_error {fetch : String → Except String (List Message)}
    {gen : String → Except String String} {yd : Date} {config : Row}
    {rest : List Row} {ops : List Op} {e : String}
    (h : process_config fetch gen yd config = (ops, some e)) :
    run_loop fetch gen yd (config :: rest) = (ops, some e) := by
  simp [run_loop, h]

/-- A loop over error-free configs concatenates the per-config traces. -/
theorem run_loop_all_ok {fetch : String → Except String (List Message)}
    {gen : String → Except String String} {yd : Date} {configs : List Row}
    (h : ∀ c ∈ configs, (process_config fetch gen yd c).2 = none) :
    run_loop fetch gen yd configs =
      ((configs.map (fun c => (process_config fetch gen yd c).1)).flatten,
       none) := by
  induction configs with
  | nil => rfl
  | cons c cs ih =>
    have hc := h c (List.mem_cons_self c cs)
    have hp : process_config fetch gen yd c =
        ((process_config fetch gen yd c).1, none) := by rw [← hc]
    rw [run_loop_cons_ok hp, ih (fun c' h' => h c' (List.mem_cons_of_mem _ h'))]
    simp

/-- A loop whose prefix of configs is error-free first emits the prefix's
traces, then behaves as the loop over the remaining configs. -/
theorem run_loop_append_ok {fetch : String → Except String (List Message)}
    {gen : String → Except String String} {yd : Date} {pre rest : List Row}
    (h : ∀ c ∈ pre, (process_config fetch gen yd c).2 = none) :
    run_loop fetch gen yd (pre ++ rest) =
      ((pre.map (fun c => (process_config fetch gen yd c).1)).flatten
          ++ (run_loop fetch gen yd rest).1,
        (run_loop fetch gen yd rest).2) := by
  induction pre with
  | nil => simp
  | cons c cs ih =>
    have hc := h c (List.mem_cons_self c cs)
    have hp : process_config fetch gen yd c =
        ((process_config fetch gen yd c).1, none) := by rw [← hc]
    rw [List.cons_append, run_loop_cons_ok hp,
        ih (fun c' h' => h c' (List.mem_cons_of_mem _ h'))]
    simp

/-- C6: a transport error in the history fetch is swallowed: the fetch
returns absent, the loop body for that project issues no operations at all,
and the run continues exactly as if the project had no messages. -/
theorem C6_fetch_error_swallowed
    (fetch : String → Except String (List Message))
    (gen : String → Except String String) (yd : Date) (e : String)
    (config : Row) (rest : List Row)
    (hfail : fetch config.channelId = .error e) :
    get_yesterday_messages (fetch config.channelId) = none ∧
    process_config fetch gen yd config = ([], none) ∧
    run_loop fetch gen yd (config :: rest) = run_loop fetch gen yd rest := by
  have h1 : get_yesterday_messages (fetch config.channelId) = none := by
    rw [hfail]
    rfl
  have h2 : process_config fetch gen yd config = ([], none) :=
    process_config_of_not_truthy (by rw [h1]; rfl)
  refine ⟨h1, h2, ?_⟩
  rw [run_loop_cons_ok h2]
  simp

/-- C6 witness: a failing fetch stub on an active row. -/
theorem C6_fetch_error_swallowed_witness :
    get_yesterday_messages (fetchErr activeRow.channelId) = none ∧
    process_config fetchErr genOk date0 activeRow = ([], none) ∧
    run_loop fetchErr genOk date0 (activeRow :: [inactiveRow]) =
      run_loop fetchErr genOk date0 [inactiveRow] :=
  C6_fetch_error_swallowed fetchErr genOk date0 "down" activeRow
    [inactiveRow] rfl

/-- C10: a non-empty history whose every record has empty (or missing) text
yields the empty string, not absent; the orchestrator still treats it like
absent and issues neither an inference call nor a publisher operation. -/
theorem C10_all_empty_texts_give_empty_string
    (fetch : String → Except String (List Message))
    (gen : String → Except String String) (yd : Date) (config : Row)
    (msgs : List Message) (hne : msgs ≠ [])
    (hall : ∀ m ∈ msgs, m.text.getD "" = "")
    (hfetch : fetch config.channelId = .ok msgs) :
    get_yesterday_messages (fetch config.channelId) = some "" ∧
    process_config fetch gen yd config = ([], none) := by
  have hfilter : msgs.reverse.filter has_text = [] := by
    rw [List.filter_eq_nil_iff]
    intro m hm
    have hm' := hall m (List.mem_reverse.mp hm)
    simp [has_text, hm']
    rfl
  have h1 : get_yesterday_messages (fetch config.channelId) = some "" := by
    rw [hfetch]
    simp [get_yesterday_messages, hne, collect_text_eq, hfilter,
      String.intercalate]
  exact ⟨h1, process_config_of_not_truthy (by rw [h1]; rfl)⟩

/-- C10 witness: one message without text. -/
theorem C10_all_empty_texts_give_empty_string_witness :
    get_yesterday_messages (fetchNoText activeRow.channelId) = some "" ∧
    process_config fetchNoText genOk date0 activeRow = ([], none) :=
  C10_all_empty_texts_give_empty_string fetchNoText genOk date0 activeRow
    msgsNoText (by decide) (by decide) rfl

/-- C1: in a run whose inference service succeeds, the trace is the
concatenation of per-project traces, the run raises nothing, and for every
active project a document-create operation is issued if and only if the
fetched transcript is truthy; an absent transcript yields no operations. -/
theorem C1_document_iff_nonempty_transcript
    (fetch : String → Except String (List Message))
    (gen : String → Except String String) (yd : Date) (rows : List Row)
    (hgen : ∀ p, ∃ s, gen p = .ok s) :
    main fetch gen yd rows =
      (((get_configs rows).map
          (fun c => (process_config fetch gen yd c).1)).flatten, none) ∧
    ∀ c ∈ get_configs rows,
      ((∃ t, Op.docCreate t ∈ (process_config fetch gen yd c).1) ↔
        truthy (get_yesterday_messages (fetch c.channelId)) = true) ∧
      (get_yesterday_messages (fetch c.channelId) = none →
        (process_config fetch gen yd c).1 = []) := by
  refine ⟨run_loop_all_ok (fun c _ => process_config_snd_none hgen),
    fun c _ => ⟨⟨?_, ?_⟩, ?_⟩⟩
  · rintro ⟨t, ht⟩
    by_contra hfalse
    have hf : truthy (get_yesterday_messages (fetch c.channelId)) = false := by
      simpa using hfalse
    rw [process_config_of_not_truthy hf] at ht
    simp at ht
  · intro ht
    obtain ⟨s, hs⟩ := hgen (build_prompt c.projectName
      ((get_yesterday_messages (fetch c.channelId)).getD ""))
    refine ⟨doc_title yd c.projectName, ?_⟩
    rw [process_config_of_gen_ok ht hs]
    simp [create_google_doc]
  · intro habs
    rw [process_config_of_not_truthy (by rw [habs]; rfl)]

/-- C1 witness: one active project with messages, all services succeeding. -/
theorem C1_document_iff_nonempty_transcript_witness :
    (main fetchOk genOk date0 [activeRow]).2 = none :=
  congrArg Prod.snd
    (C1_document_iff_nonempty_transcript fetchOk genOk date0 [activeRow]
      (fun _ => ⟨"SUMMARY", rfl⟩)).1

/-- C7: when the inference call for a project raises, the error propagates
out of the whole run: the trace ends at that project's inference call (no
document is created for it) and no later project contributes anything. -/
theorem C7_inference_error_halts_run
    (fetch : String → Except String (List Message))
    (gen : String → Except String String) (yd : Date)
    (rows pre post : List Row) (config : Row) (e : String)
    (hcfg : get_configs rows = pre ++ config :: post)
    (hpre : ∀ c ∈ pre, (process_config fetch gen yd c).2 = none)
    (ht : truthy (get_yesterday_messages (fetch config.channelId)) = true)
    (hg : gen (build_prompt config.projectName
        ((get_yesterday_messages (fetch config.channelId)).getD "")) =
      .error e) :
    main fetch gen yd rows =
      ((pre.map (fun c => (process_config fetch gen yd c).1)).flatten
          ++ [Op.inferCall (build_prompt config.projectName
              ((get_yesterday_messages (fetch config.channelId)).getD ""))],
        some e) := by
  show run_loop fetch gen yd (get_configs rows) = _
  rw [hcfg, run_loop_append_ok hpre,
      run_loop_cons_error (process_config_of_gen_error ht hg)]

/-- C7 witness: a single active project whose inference stub raises. -/
theorem C7_inference_error_halts_run_witness :
    main fetchOk genBad date0 [activeRow] =
      ([Op.inferCall (build_prompt activeRow.projectName
          ((get_yesterday_messages (fetchOk activeRow.channelId)).getD ""))],
        some "boom") := by
  have h := C7_inference_error_halts_run fetchOk genBad date0 [activeRow]
    [] [] activeRow "boom" rfl (fun c hc => absurd hc (List.not_mem_nil c))
    rfl rfl
  simpa using h

end SlackSummaryBot
